import Mathlib

/-!
Shallow embedding of the licensing logic of tonch-api.

The repository contains four variants of the same Cloudflare-Worker
licensing service over one SQLite table `installations`:

* `src/src/index.js` (the "V2" build) — modelled by `evaluateV2`,
  `statusQueryV2`, `registerOrTouch`, `grant`;
* `src/unnamed/part_000` — modelled by `evaluate`, `statusQuery`,
  `grantP0`, `setBlocked`;
* `src/unnamed/part_001` — same decision logic as `part_000`/`part_002`
  (its unguarded `Date.now() > Date.parse(e)` comparison is false for an
  unparsable string, which is the same result as the guarded variants);
* `src/unnamed/part_002` — modelled by `evaluate`, `statusQuery`, `grant`
  with `notes := none`.

Timestamps are epoch milliseconds (`Date.now()` / `Date.parse`) modelled
as `Int`; a stored `expires_at` TEXT column is `Option TsVal`, where
`TsVal.malformed` stands for a non-null string `Date.parse` rejects
(result `NaN`). The database is a map from `machine_id` to its row.
-/

namespace TonchApi

/-- Result of `Date.parse` on a stored timestamp string: either the epoch
milliseconds, or `malformed` for a string that does not parse (`NaN`). -/
inductive TsVal where
  | parsed (ms : Int)
  | malformed
deriving DecidableEq

/-- One row of the `installations` table. `activated` and `blocked` are the
INTEGER 0/1 columns (the routes read them with `!!`/`=== 1`/truthiness, all
agreeing on 0/1 values); `expires_at` and `notes` are nullable. -/
structure Row where
  machine_id : String
  first_seen_at : Int
  last_seen_at : Int
  activated : Bool
  blocked : Bool
  expires_at : Option TsVal
  notes : Option String
deriving DecidableEq

/-- The reason strings returned by `/activation_status`. -/
inductive Reason where
  | not_registered
  | not_activated
  | blocked
  | expired
  | ok
deriving DecidableEq

/-- The JSON body of an `/activation_status` response (minus the constant
`ok: true`). -/
structure StatusResult where
  activated : Bool
  blocked : Bool
  expires_at : Option TsVal
  reason : Reason
deriving DecidableEq

/-- Expiry check shared by every variant:
`if (row.expires_at) { const ms = Date.parse(row.expires_at);
 if (!Number.isNaN(ms)) expired = Date.now() > ms; }`.
A null or unparsable `expires_at` never counts as expired. -/
def isExpired (now : Int) : Option TsVal → Bool
  | none => false
  | some (TsVal.parsed ms) => decide (ms < now)
  | some TsVal.malformed => false

/-- Status computation for an existing row, shared by every variant
(`src/src/index.js` lines 124-140, `part_000` lines 126-150, `part_001`
lines 65-90, `part_002` lines 84-99):
`isActivated = !!row.activated && !expired; isBlocked = !!row.blocked;`
response `activated = isActivated && !isBlocked`, `blocked = isBlocked`,
`expires_at` echoed, and the reason chain
`blocked ? "blocked" : expired ? "expired" : isActivated ? "ok" : "not_activated"`. -/
def evalRow (now : Int) (r : Row) : StatusResult :=
  let expired := isExpired now r.expires_at
  let isActivated := r.activated && !expired
  let isBlocked := r.blocked
  { activated := isActivated && !isBlocked
    blocked := isBlocked
    expires_at := r.expires_at
    reason :=
      if isBlocked then Reason.blocked
      else if expired then Reason.expired
      else if isActivated then Reason.ok
      else Reason.not_activated }

/-- The `/activation_status` decision of `part_000`, `part_001` and
`part_002`: an absent row answers `reason: "not_registered"` with
`activated=false, blocked=false, expires_at=null`. -/
def evaluate (now : Int) : Option Row → StatusResult
  | none =>
    { activated := false, blocked := false, expires_at := none
      reason := Reason.not_registered }
  | some r => evalRow now r

/-- The `/activation_status` decision of `src/src/index.js` (V2): identical
to `evaluate` except that an absent row answers `reason: "not_activated"`
(line 120). -/
def evaluateV2 (now : Int) : Option Row → StatusResult
  | none =>
    { activated := false, blocked := false, expires_at := none
      reason := Reason.not_activated }
  | some r => evalRow now r

/-- The `installations` table, keyed by `machine_id` (TEXT PRIMARY KEY). -/
def Db := String → Option Row

/-- The empty table. -/
def dbEmpty : Db := fun _ => none

/-- The routes call `String.prototype.trim()` on every incoming
`machine_id` before validating and storing it. Embedded as an executable
function on the character list: drop leading and trailing whitespace. -/
def jsTrim (s : String) : String :=
  ⟨((s.data.dropWhile Char.isWhitespace).reverse.dropWhile
      Char.isWhitespace).reverse⟩

/-- The two 400-errors the licensing routes can raise on their input
(`machine_id_required` and `invalid_days`). -/
inductive ApiError where
  | machineIdRequired
  | invalidDays
deriving DecidableEq

/-- The row inserted for a previously unknown machine by the registration
upsert: `VALUES (?, now, now, 0, 0)` with `expires_at` and `notes` NULL. -/
def freshRow (machine_id : String) (now : Int) : Row :=
  { machine_id := machine_id, first_seen_at := now, last_seen_at := now
    activated := false, blocked := false, expires_at := none, notes := none }

/-- The registration upsert shared by `/register_install` and the V2 status
route: `INSERT INTO installations (machine_id, first_seen_at, last_seen_at,
activated, blocked) VALUES (?, ?, ?, 0, 0) ON CONFLICT(machine_id) DO
UPDATE SET last_seen_at=excluded.last_seen_at`. -/
def upsertTouch (db : Db) (machine_id : String) (now : Int) : Db :=
  fun k =>
    if k = machine_id then
      some (match db machine_id with
        | none => freshRow machine_id now
        | some r => { r with last_seen_at := now })
    else db k

/-- Route `POST /register_install` (`src/src/index.js` lines 82-94, `part_002`
lines 44-56, `part_001`-style in `part_000` lines 65-89): trims the id,
rejects an empty result with `machine_id_required`, otherwise runs the
registration upsert. -/
def registerOrTouch (db : Db) (rawId : String) (now : Int) : Except ApiError Db :=
  let machine_id := (jsTrim rawId)
  if machine_id = "" then Except.error ApiError.machineIdRequired
  else Except.ok (upsertTouch db machine_id now)

/-- Route `GET /activation_status` of `part_000`/`part_001`/`part_002`: after the
id check, look the row up; when absent, answer `not_registered` and leave
the table unchanged (their `UPDATE ... SET last_seen_at` touches no row);
when present, touch `last_seen_at` and answer from the fetched row. -/
def statusQuery (db : Db) (rawId : String) (now : Int) :
    Except ApiError (Db × StatusResult) :=
  let machine_id := (jsTrim rawId)
  if machine_id = "" then Except.error ApiError.machineIdRequired
  else
    match db machine_id with
    | none => Except.ok (db, evaluate now none)
    | some r =>
      Except.ok
        (fun k => if k = machine_id then some { r with last_seen_at := now } else db k,
         evalRow now r)

/-- Route `GET /activation_status` of `src/src/index.js` (V2, lines 97-141):
SELECT the row, then unconditionally run the registration upsert ("Atualiza
presença mesmo se não existir"), then answer from the row fetched before
the upsert — `not_activated` when it was absent. -/
def statusQueryV2 (db : Db) (rawId : String) (now : Int) :
    Except ApiError (Db × StatusResult) :=
  let machine_id := (jsTrim rawId)
  if machine_id = "" then Except.error ApiError.machineIdRequired
  else
    let row := db machine_id
    Except.ok (upsertTouch db machine_id now, evaluateV2 now row)

/-- Milliseconds per day; the routes compute `days * 86400000`. -/
def msPerDay : Int := 86400000

/-- The row stored by the V2 grant upsert for key `machine_id`:
`VALUES (?, now, now, 1, 0, expires, notes)` on insert, and on conflict
`activated=1, blocked=0, expires_at=excluded.expires_at,
notes=COALESCE(excluded.notes, installations.notes),
last_seen_at=excluded.last_seen_at`. -/
def grantRow (db : Db) (machine_id : String) (expires : Int) (ns : Option String)
    (now : Int) : Row :=
  match db machine_id with
  | none =>
    { machine_id := machine_id, first_seen_at := now, last_seen_at := now
      activated := true, blocked := false
      expires_at := some (TsVal.parsed expires), notes := ns }
  | some r =>
    { r with activated := true, blocked := false
             expires_at := some (TsVal.parsed expires)
             notes := ns.orElse (fun _ => r.notes)
             last_seen_at := now }

/-- The table after the V2 grant upsert. -/
def grantDb (db : Db) (machine_id : String) (expires : Int) (ns : Option String)
    (now : Int) : Db :=
  fun k => if k = machine_id then some (grantRow db machine_id expires ns now) else db k

/-- Route `POST /admin/grant` of `src/src/index.js` (lines 150-173; `part_002`
lines 112-135 is the same with no `notes`): trim the id and reject an empty
result; reject `days < 1 || days > 3650` with `invalid_days`; otherwise
compute `expires = now + days*86400000` and run the grant upsert, returning
`expires`. -/
def grant (db : Db) (rawId : String) (days : Int) (ns : Option String) (now : Int) :
    Except ApiError (Db × Int) :=
  let machine_id := (jsTrim rawId)
  if machine_id = "" then Except.error ApiError.machineIdRequired
  else if days < 1 ∨ 3650 < days then Except.error ApiError.invalidDays
  else
    Except.ok (grantDb db machine_id (now + days * msPerDay) ns now,
               now + days * msPerDay)

/-- The row stored by the `part_000` grant upsert (lines 190-198): same as
the V2 one but the statement never mentions `notes` — NULL on insert,
untouched on update. -/
def grantP0Row (db : Db) (machine_id : String) (expires now : Int) : Row :=
  match db machine_id with
  | none =>
    { machine_id := machine_id, first_seen_at := now, last_seen_at := now
      activated := true, blocked := false
      expires_at := some (TsVal.parsed expires), notes := none }
  | some r =>
    { r with activated := true, blocked := false
             expires_at := some (TsVal.parsed expires)
             last_seen_at := now }

/-- The table after the `part_000` grant upsert. -/
def grantP0Db (db : Db) (machine_id : String) (expires now : Int) : Db :=
  fun k => if k = machine_id then some (grantP0Row db machine_id expires now) else db k

/-- Route `POST /admin/grant` of `part_000` (lines 156-206): the day count is
`Number(body.days) || 365`, so a missing `days` — and also `days = 0`,
which is falsy — becomes the default 365 before the `1..3650` range check;
the upsert never touches `notes`. -/
def grantP0 (db : Db) (rawId : String) (days0 : Option Int) (now : Int) :
    Except ApiError (Db × Int) :=
  let machine_id := (jsTrim rawId)
  let days : Int :=
    match days0 with
    | none => 365
    | some n => if n = 0 then 365 else n
  if machine_id = "" then Except.error ApiError.machineIdRequired
  else if days < 1 ∨ 3650 < days then Except.error ApiError.invalidDays
  else
    Except.ok (grantP0Db db machine_id (now + days * msPerDay) now,
               now + days * msPerDay)

/-- The table after the `part_000` block update: `UPDATE installations SET
blocked=?, last_seen_at=? WHERE machine_id=?` — a plain update, a no-op for
an unknown machine. -/
def setBlockedDb (db : Db) (machine_id : String) (b : Bool) (now : Int) : Db :=
  fun k =>
    if k = machine_id then
      (db machine_id).map (fun r => { r with blocked := b, last_seen_at := now })
    else db k

/-- Route `POST /admin/block` of `part_000` (lines 209-243): trim the id, reject
an empty result, then run the block update. -/
def setBlocked (db : Db) (rawId : String) (b : Bool) (now : Int) : Except ApiError Db :=
  let machine_id := (jsTrim rawId)
  if machine_id = "" then Except.error ApiError.machineIdRequired
  else Except.ok (setBlockedDb db machine_id b now)

/-- Sample row: activated but blocked, with an expiry already in the past. -/
def rowBlockedPast : Row :=
  { machine_id := "m1", first_seen_at := 0, last_seen_at := 0
    activated := true, blocked := true
    expires_at := some (TsVal.parsed (-5)), notes := none }

/-- Sample row: activated, not blocked, expiry at time 5. -/
def rowActivePast : Row :=
  { machine_id := "m1", first_seen_at := 0, last_seen_at := 0
    activated := true, blocked := false
    expires_at := some (TsVal.parsed 5), notes := none }

/-- Sample row: activated, not blocked, stored `expires_at` unparsable. -/
def rowActiveMalformed : Row :=
  { machine_id := "m1", first_seen_at := 0, last_seen_at := 0
    activated := true, blocked := false
    expires_at := some TsVal.malformed, notes := none }

/-- Sample row: a granted, non-expired, annotated installation. -/
def rowGranted : Row :=
  { machine_id := "m1", first_seen_at := 1, last_seen_at := 2
    activated := true, blocked := false
    expires_at := some (TsVal.parsed 1000), notes := some "vip" }

/-- Sample table holding only `rowGranted` under key "m1". -/
def dbSample : Db := fun k => if k = "m1" then some rowGranted else none

/-- C1 counterexample: in `src/src/index.js` (one of the claim's cited
sources) a status query for a machine with no persisted record answers
`reason = not_activated`, not `not_registered` (line 120), so the claim's
universal statement fails on that variant. -/
theorem C1_counterexample :
    (evaluateV2 0 none).reason = Reason.not_activated ∧
    Reason.not_activated ≠ Reason.not_registered :=
  ⟨rfl, by decide⟩

/-- C1 (amended): in the `part_000`/`part_001`/`part_002` variants a status
query with no persisted record returns `effectiveActivated=false`,
`blocked=false`, `expiresAt=null`, `reason=NOT_REGISTERED`, and
`NOT_ACTIVATED` arises only from an existing record that is neither blocked
nor activated; the `src/src/index.js` variant instead answers
`NOT_ACTIVATED` for an absent record. -/
theorem C1_absent_reason (now : Int) :
    evaluate now none =
      { activated := false, blocked := false, expires_at := none
        reason := Reason.not_registered } ∧
    (∀ r : Row, (evaluate now (some r)).reason = Reason.not_activated →
      r.blocked = false ∧ r.activated = false) ∧
    (evaluateV2 now none).reason = Reason.not_activated := by
  refine ⟨rfl, ?_, rfl⟩
  intro r h
  cases hb : r.blocked <;> cases ha : r.activated <;>
    cases he : isExpired now r.expires_at <;>
      simp [evaluate, evalRow, hb, ha, he] at h ⊢

/-- C1 witness: the amended statement evaluated at time 0. -/
theorem C1_absent_reason_witness :
    evaluate 0 none =
      { activated := false, blocked := false, expires_at := none
        reason := Reason.not_registered } :=
  (C1_absent_reason 0).1

/-- C2: a blocked record always evaluates to `reason=BLOCKED` with
`effectiveActivated=false`, whatever `activated` and `expires_at` hold. -/
theorem C2_blocked_wins (now : Int) (r : Row) (hb : r.blocked = true) :
    (evaluate now (some r)).reason = Reason.blocked ∧
    (evaluate now (some r)).activated = false := by
  simp [evaluate, evalRow, hb]

/-- C2 witness: a blocked, activated row with an expiry already in the past
still answers `BLOCKED`. -/
theorem C2_blocked_wins_witness :
    (evaluate 10 (some rowBlockedPast)).reason = Reason.blocked ∧
    (evaluate 10 (some rowBlockedPast)).activated = false :=
  C2_blocked_wins 10 rowBlockedPast rfl

/-- C3: for an activated, unblocked record, an `expires_at` strictly before
`now` yields `reason=EXPIRED` with `effectiveActivated=false`, while a null
or future `expires_at` yields `reason=OK` with `effectiveActivated=true`. -/
theorem C3_expiry (now ms : Int) (r : Row) (ha : r.activated = true)
    (hb : r.blocked = false) :
    (r.expires_at = some (TsVal.parsed ms) → ms < now →
      (evaluate now (some r)).reason = Reason.expired ∧
      (evaluate now (some r)).activated = false) ∧
    (r.expires_at = none →
      (evaluate now (some r)).reason = Reason.ok ∧
      (evaluate now (some r)).activated = true) ∧
    (r.expires_at = some (TsVal.parsed ms) → now < ms →
      (evaluate now (some r)).reason = Reason.ok ∧
      (evaluate now (some r)).activated = true) := by
  refine ⟨?_, ?_, ?_⟩
  · intro he hlt
    simp [evaluate, evalRow, isExpired, ha, hb, he, hlt]
  · intro he
    simp [evaluate, evalRow, isExpired, ha, hb, he]
  · intro he hlt
    have hnot : ¬ ms < now := Int.not_lt.mpr (le_of_lt hlt)
    simp [evaluate, evalRow, isExpired, ha, hb, he, hnot]

/-- C3 witness: a grant that expired at time 5 evaluates as `EXPIRED` at
time 10. -/
theorem C3_expiry_witness :
    (evaluate 10 (some rowActivePast)).reason = Reason.expired ∧
    (evaluate 10 (some rowActivePast)).activated = false :=
  (C3_expiry 10 5 rowActivePast rfl rfl).1 rfl (by decide)

/-- C8: an unparsable stored `expires_at` is treated as not expired, so an
activated, unblocked record evaluates to `OK` / `effectiveActivated=true`
in every variant (`Date.parse` yields `NaN`, and each variant's comparison
with `NaN` leaves `expired = false`). -/
theorem C8_malformed_not_expired (now : Int) (r : Row)
    (hm : r.expires_at = some TsVal.malformed) (ha : r.activated = true)
    (hb : r.blocked = false) :
    (evaluate now (some r)).reason = Reason.ok ∧
    (evaluate now (some r)).activated = true ∧
    (evaluateV2 now (some r)).reason = Reason.ok := by
  simp [evaluate, evaluateV2, evalRow, isExpired, hm, ha, hb]

/-- C8 witness: the fail-open policy on a concrete corrupt row. -/
theorem C8_malformed_not_expired_witness :
    (evaluate 10 (some rowActiveMalformed)).reason = Reason.ok ∧
    (evaluate 10 (some rowActiveMalformed)).activated = true ∧
    (evaluateV2 10 (some rowActiveMalformed)).reason = Reason.ok :=
  C8_malformed_not_expired 10 rowActiveMalformed rfl rfl rfl

/-- C4: for a valid machine id and `1 ≤ days ≤ 3650`, `grant` returns
`expiresAt = now + days*86400000` ms (i.e. `days*86400` seconds past `now`)
and upserts the record with `activated=true, blocked=false,
expires_at=expiresAt, last_seen_at=now`, keeping `first_seen_at` of an
existing record and every other machine's row; any prior block is cleared,
and an evaluation at any time up to `expiresAt` answers `OK`. -/
theorem C4_grant_effect (db : Db) (rawId : String) (days : Int) (ns : Option String)
    (now : Int) (hid : (jsTrim rawId) ≠ "") (hd1 : 1 ≤ days) (hd2 : days ≤ 3650) :
    grant db rawId days ns now =
      Except.ok (grantDb db (jsTrim rawId) (now + days * msPerDay) ns now,
                 now + days * msPerDay) ∧
    (grantRow db (jsTrim rawId) (now + days * msPerDay) ns now).activated = true ∧
    (grantRow db (jsTrim rawId) (now + days * msPerDay) ns now).blocked = false ∧
    (grantRow db (jsTrim rawId) (now + days * msPerDay) ns now).expires_at =
      some (TsVal.parsed (now + days * msPerDay)) ∧
    (grantRow db (jsTrim rawId) (now + days * msPerDay) ns now).last_seen_at = now ∧
    grantDb db (jsTrim rawId) (now + days * msPerDay) ns now (jsTrim rawId) =
      some (grantRow db (jsTrim rawId) (now + days * msPerDay) ns now) ∧
    (∀ r0, db (jsTrim rawId) = some r0 →
      (grantRow db (jsTrim rawId) (now + days * msPerDay) ns now).first_seen_at =
        r0.first_seen_at) ∧
    (∀ k, k ≠ (jsTrim rawId) →
      grantDb db (jsTrim rawId) (now + days * msPerDay) ns now k = db k) ∧
    (∀ now2 : Int, now2 ≤ now + days * msPerDay →
      (evaluate now2
        (some (grantRow db (jsTrim rawId) (now + days * msPerDay) ns now))).reason =
          Reason.ok ∧
      (evaluate now2
        (some (grantRow db (jsTrim rawId) (now + days * msPerDay) ns now))).activated =
          true) := by
  have hds : ¬ (days < 1 ∨ 3650 < days) := by omega
  refine ⟨by simp [grant, hid, hds], ?_, ?_, ?_, ?_, by simp [grantDb], ?_, ?_, ?_⟩
  · cases h0 : db (jsTrim rawId) <;> simp [grantRow, h0]
  · cases h0 : db (jsTrim rawId) <;> simp [grantRow, h0]
  · cases h0 : db (jsTrim rawId) <;> simp [grantRow, h0]
  · cases h0 : db (jsTrim rawId) <;> simp [grantRow, h0]
  · intro r0 h0
    simp [grantRow, h0]
  · intro k hk
    simp [grantDb, hk]
  · intro now2 h2
    have hnot : ¬ (now + days * msPerDay < now2) := by omega
    cases h0 : db (jsTrim rawId) <;>
      simp [grantRow, h0, evaluate, evalRow, isExpired, hnot]

/-- C4 witness: granting 30 days to a fresh machine at time 0 and checking
the status at time 100. -/
theorem C4_grant_effect_witness :
    grant dbEmpty "m1" 30 none 0 =
      Except.ok (grantDb dbEmpty (jsTrim "m1") (0 + 30 * msPerDay) none 0,
                 0 + 30 * msPerDay) ∧
    (evaluate 100 (some (grantRow dbEmpty (jsTrim "m1") (0 + 30 * msPerDay) none 0))).reason =
      Reason.ok :=
  ⟨(C4_grant_effect dbEmpty "m1" 30 none 0 (by decide) (by decide) (by decide)).1,
   ((C4_grant_effect dbEmpty "m1" 30 none 0 (by decide) (by decide)
      (by decide)).2.2.2.2.2.2.2.2 100 (by decide)).1⟩

/-- C5 counterexample: the `part_000` grant route (one of the claim's cited
sources) does not reject `days=0`: `Number(body.days) || 365` replaces the
falsy 0 by the default 365 before the range check, so the request succeeds
with a 365-day expiry instead of failing with `invalid_days`. -/
theorem C5_counterexample :
    grantP0 dbEmpty "m1" (some 0) 0 =
      Except.ok (grantP0Db dbEmpty (jsTrim "m1") (0 + 365 * msPerDay) 0,
                 0 + 365 * msPerDay) := rfl

/-- C5 (amended): the `src/src/index.js` grant rejects an empty or
whitespace-only machine id with `machine_id_required`, rejects any `days`
outside 1..3650 with `invalid_days` — in particular 0 and 3651 — writing no
record, and accepts `days=1` and `days=3650`; the `part_000` variant
instead coerces `days=0` to the default 365, behaving exactly like a
365-day grant. -/
theorem C5_grant_validation (db : Db) (rawId : String) (ns : Option String)
    (days now : Int) :
    ((jsTrim rawId) = "" →
      grant db rawId days ns now = Except.error ApiError.machineIdRequired) ∧
    ((jsTrim rawId) ≠ "" → days < 1 ∨ 3650 < days →
      grant db rawId days ns now = Except.error ApiError.invalidDays) ∧
    ((jsTrim rawId) ≠ "" →
      grant db rawId 0 ns now = Except.error ApiError.invalidDays ∧
      grant db rawId 3651 ns now = Except.error ApiError.invalidDays ∧
      grant db rawId 1 ns now =
        Except.ok (grantDb db (jsTrim rawId) (now + 1 * msPerDay) ns now,
                   now + 1 * msPerDay) ∧
      grant db rawId 3650 ns now =
        Except.ok (grantDb db (jsTrim rawId) (now + 3650 * msPerDay) ns now,
                   now + 3650 * msPerDay)) ∧
    grantP0 db rawId (some 0) now = grantP0 db rawId (some 365) now := by
  refine ⟨?_, ?_, ?_, rfl⟩
  · intro h
    simp [grant, h]
  · intro hid hd
    simp [grant, hid, hd]
  · intro hid
    refine ⟨?_, ?_, ?_, ?_⟩ <;> norm_num [grant, hid]

/-- C5 witness: concrete accept/reject decisions of the V2 grant. -/
theorem C5_grant_validation_witness :
    grant dbEmpty "m1" 0 none 0 = Except.error ApiError.invalidDays ∧
    grant dbEmpty "m1" 1 none 0 =
      Except.ok (grantDb dbEmpty (jsTrim "m1") (0 + 1 * msPerDay) none 0,
                 0 + 1 * msPerDay) ∧
    grant dbEmpty " " 5 none 0 = Except.error ApiError.machineIdRequired :=
  ⟨((C5_grant_validation dbEmpty "m1" none 0 0).2.2.1 (by decide)).1,
   ((C5_grant_validation dbEmpty "m1" none 1 0).2.2.1 (by decide)).2.2.1,
   (C5_grant_validation dbEmpty " " none 5 0).1 (by decide)⟩

/-- C6: `registerOrTouch` creates `first_seen_at = last_seen_at = now,
activated=false, blocked=false` for an unknown machine, only rewrites
`last_seen_at` on an existing record (everything else is kept verbatim by
the on-conflict clause), touches no other machine, and a second call only
moves `last_seen_at` again. -/
theorem C6_registerOrTouch_upsert (db : Db) (rawId : String) (now : Int)
    (hid : (jsTrim rawId) ≠ "") :
    registerOrTouch db rawId now = Except.ok (upsertTouch db (jsTrim rawId) now) ∧
    (db (jsTrim rawId) = none →
      upsertTouch db (jsTrim rawId) now (jsTrim rawId) = some (freshRow (jsTrim rawId) now)) ∧
    (∀ r, db (jsTrim rawId) = some r →
      upsertTouch db (jsTrim rawId) now (jsTrim rawId) = some { r with last_seen_at := now }) ∧
    (∀ k, k ≠ (jsTrim rawId) → upsertTouch db (jsTrim rawId) now k = db k) ∧
    (∀ now2 : Int,
      upsertTouch (upsertTouch db (jsTrim rawId) now) (jsTrim rawId) now2 (jsTrim rawId) =
        (upsertTouch db (jsTrim rawId) now (jsTrim rawId)).map
          (fun r => { r with last_seen_at := now2 })) := by
  refine ⟨by simp [registerOrTouch, hid], ?_, ?_, ?_, ?_⟩
  · intro h0
    simp [upsertTouch, h0]
  · intro r h0
    simp [upsertTouch, h0]
  · intro k hk
    simp [upsertTouch, hk]
  · intro now2
    cases h0 : db (jsTrim rawId) <;> simp [upsertTouch, h0]

/-- C6 witness: touching the sample record at time 7 rewrites only
`last_seen_at`. -/
theorem C6_registerOrTouch_upsert_witness :
    registerOrTouch dbSample "m1" 7 = Except.ok (upsertTouch dbSample (jsTrim "m1") 7) ∧
    upsertTouch dbSample (jsTrim "m1") 7 (jsTrim "m1") =
      some { rowGranted with last_seen_at := 7 } :=
  ⟨(C6_registerOrTouch_upsert dbSample "m1" 7 (by decide)).1,
   (C6_registerOrTouch_upsert dbSample "m1" 7 (by decide)).2.2.1 rowGranted rfl⟩

/-- C7 counterexample: in the `part_000`/`part_001`/`part_002` variants
(two of them cited by the claim) a first status query for an unknown
machine does not create any record — their `UPDATE ... SET last_seen_at`
touches no row and the table comes back unchanged, still empty at "m1". -/
theorem C7_counterexample :
    statusQuery dbEmpty "m1" 0 =
      Except.ok (dbEmpty,
        { activated := false, blocked := false, expires_at := none
          reason := Reason.not_registered }) ∧
    dbEmpty "m1" = none :=
  ⟨rfl, rfl⟩

/-- C7 (amended): the first registration creates the record with
`activated=false, blocked=false` in every variant; the first status query
does so only in `src/src/index.js` (V2), whose status route runs the same
registration upsert, while in the other variants a status query for an
unknown machine leaves the table unchanged. -/
theorem C7_lazy_creation (db : Db) (rawId : String) (now : Int)
    (hid : (jsTrim rawId) ≠ "") (habs : db (jsTrim rawId) = none) :
    registerOrTouch db rawId now = Except.ok (upsertTouch db (jsTrim rawId) now) ∧
    upsertTouch db (jsTrim rawId) now (jsTrim rawId) = some (freshRow (jsTrim rawId) now) ∧
    (freshRow (jsTrim rawId) now).activated = false ∧
    (freshRow (jsTrim rawId) now).blocked = false ∧
    statusQueryV2 db rawId now =
      Except.ok (upsertTouch db (jsTrim rawId) now, evaluateV2 now none) ∧
    statusQuery db rawId now = Except.ok (db, evaluate now none) := by
  refine ⟨by simp [registerOrTouch, hid], by simp [upsertTouch, habs], rfl, rfl, ?_, ?_⟩
  · simp [statusQueryV2, hid, habs]
  · simp [statusQuery, hid, habs]

/-- C7 witness: registering an unknown machine at time 3 creates the
default row; querying it first leaves the empty table untouched. -/
theorem C7_lazy_creation_witness :
    upsertTouch dbEmpty (jsTrim "m2") 3 (jsTrim "m2") = some (freshRow (jsTrim "m2") 3) ∧
    statusQuery dbEmpty "m2" 3 = Except.ok (dbEmpty, evaluate 3 none) :=
  ⟨(C7_lazy_creation dbEmpty "m2" 3 (by decide) rfl).2.1,
   (C7_lazy_creation dbEmpty "m2" 3 (by decide) rfl).2.2.2.2.2⟩

/-- C9: on an existing record `setBlocked` stores exactly the given
`blocked` value and `last_seen_at = now`, leaving `activated`,
`expires_at` and every other machine's row unchanged; with `blocked=true`
the subsequent evaluation answers `BLOCKED` while still echoing the
unaltered stored `expires_at`. -/
theorem C9_setBlocked_effect (db : Db) (rawId : String) (b : Bool) (now now2 : Int)
    (r : Row) (hid : (jsTrim rawId) ≠ "") (hr : db (jsTrim rawId) = some r) :
    setBlocked db rawId b now = Except.ok (setBlockedDb db (jsTrim rawId) b now) ∧
    setBlockedDb db (jsTrim rawId) b now (jsTrim rawId) =
      some { r with blocked := b, last_seen_at := now } ∧
    ({ r with blocked := b, last_seen_at := now } : Row).activated = r.activated ∧
    ({ r with blocked := b, last_seen_at := now } : Row).expires_at = r.expires_at ∧
    (∀ k, k ≠ (jsTrim rawId) → setBlockedDb db (jsTrim rawId) b now k = db k) ∧
    (b = true →
      (evaluate now2 (setBlockedDb db (jsTrim rawId) b now (jsTrim rawId))).reason =
        Reason.blocked ∧
      (evaluate now2 (setBlockedDb db (jsTrim rawId) b now (jsTrim rawId))).expires_at =
        r.expires_at) := by
  refine ⟨by simp [setBlocked, hid], by simp [setBlockedDb, hr], rfl, rfl, ?_, ?_⟩
  · intro k hk
    simp [setBlockedDb, hk]
  · intro hb
    subst hb
    simp [setBlockedDb, hr, evaluate, evalRow]

/-- C9 witness: blocking the granted, non-expired sample record at time 50
flips its evaluation at time 60 to `BLOCKED`. -/
theorem C9_setBlocked_effect_witness :
    setBlocked dbSample "m1" true 50 = Except.ok (setBlockedDb dbSample (jsTrim "m1") true 50) ∧
    (evaluate 60 (setBlockedDb dbSample (jsTrim "m1") true 50 (jsTrim "m1"))).reason =
      Reason.blocked :=
  ⟨(C9_setBlocked_effect dbSample "m1" true 50 60 rowGranted (by decide) rfl).1,
   ((C9_setBlocked_effect dbSample "m1" true 50 60 rowGranted
      (by decide) rfl).2.2.2.2.2 rfl).1⟩

/-- C10: the V2 grant's `notes=COALESCE(excluded.notes, installations.notes)`
keeps an existing record's notes when the request supplies none and
overwrites them exactly when a value is supplied; the `part_000` grant
statement never mentions `notes`, so it always keeps them. -/
theorem C10_grant_notes (db : Db) (rawId : String) (days now : Int) (r : Row)
    (hid : (jsTrim rawId) ≠ "") (hd1 : 1 ≤ days) (hd2 : days ≤ 3650)
    (hr : db (jsTrim rawId) = some r) :
    grant db rawId days none now =
      Except.ok (grantDb db (jsTrim rawId) (now + days * msPerDay) none now,
                 now + days * msPerDay) ∧
    (grantDb db (jsTrim rawId) (now + days * msPerDay) none now (jsTrim rawId)).map Row.notes =
      some r.notes ∧
    (∀ s : String,
      (grantDb db (jsTrim rawId) (now + days * msPerDay) (some s) now (jsTrim rawId)).map
        Row.notes = some (some s)) ∧
    (grantP0Db db (jsTrim rawId) (now + days * msPerDay) now (jsTrim rawId)).map Row.notes =
      some r.notes := by
  have hds : ¬ (days < 1 ∨ 3650 < days) := by omega
  refine ⟨by simp [grant, hid, hds], ?_, ?_, ?_⟩
  · simp [grantDb, grantRow, hr, Option.orElse]
  · intro s
    simp [grantDb, grantRow, hr, Option.orElse]
  · simp [grantP0Db, grantP0Row, hr]

/-- C10 witness: re-granting the annotated sample record without notes
keeps `"vip"`; supplying `"x"` overwrites it. -/
theorem C10_grant_notes_witness :
    (grantDb dbSample (jsTrim "m1") (0 + 30 * msPerDay) none 0 (jsTrim "m1")).map Row.notes =
      some rowGranted.notes ∧
    (grantDb dbSample (jsTrim "m1") (0 + 30 * msPerDay) (some "x") 0 (jsTrim "m1")).map Row.notes =
      some (some "x") :=
  ⟨(C10_grant_notes dbSample "m1" 30 0 rowGranted (by decide) (by decide)
      (by decide) rfl).2.1,
   (C10_grant_notes dbSample "m1" 30 0 rowGranted (by decide) (by decide)
      (by decide) rfl).2.2.1 "x"⟩

end TonchApi
